import Mathlib

/-
Verification of the VIS42 MCP proxy core logic (server/lib.js):
the instrumentation wrapper withLogging, and the lazy connection
supervisor buildGetRemoteClient with its inner connect routine.
The JavaScript is shallowly embedded: promise-based control flow
becomes explicit state passing and outcome parameters; errors are
carried as values.
-/

set_option autoImplicit false

namespace VIS42

/-! ### The timeout-detection pattern

The source decides whether an error is a timeout by testing the regular
expression /timed?\s*out/i against the message text (lib.js line 114):
the letters t,i,m,e, an optional d, a run of whitespace of any length,
then o,u,t, matched case-insensitively anywhere in the string. -/

/-- Membership in the JavaScript \s class, restricted to the ASCII range
(the only characters that occur in the messages of this program). -/
def isWsChar (c : Char) : Bool :=
  c == ' ' || c == '\t' || c == '\n' || c == '\r' || c == '\x0b' || c == '\x0c'

/-- Case-insensitively consume the pattern characters from the head of the
input, returning the rest on success. -/
def consumeCI : List Char → List Char → Option (List Char)
  | [], cs => some cs
  | _ :: _, [] => none
  | p :: ps, c :: cs => if c.toLower == p then consumeCI ps cs else none

/-- Does /timed?\s*out/i match starting exactly at the head of the input? -/
def timeoutPatAt (cs : List Char) : Bool :=
  match consumeCI ['t', 'i', 'm', 'e'] cs with
  | none => false
  | some rest =>
    let rest1 : List Char :=
      match rest with
      | c :: tl => if c.toLower == 'd' then tl else c :: tl
      | [] => []
    (consumeCI ['o', 'u', 't'] (rest1.dropWhile isWsChar)).isSome

/-- Does /timed?\s*out/i match anywhere in the input? -/
def timeoutPatIn : List Char → Bool
  | [] => false
  | c :: cs => timeoutPatAt (c :: cs) || timeoutPatIn cs

/-- The test /timed?\s*out/i.test(message) of lib.js line 114. -/
def isTimeoutMessage (msg : String) : Bool :=
  timeoutPatIn msg.data

/-- The message of the error produced by the timeout guard
(lib.js line 99). -/
def timeoutMessage (connectTimeoutMs : Nat) : String :=
  "Connection timed out after " ++ toString connectTimeoutMs ++ "ms"

/-- The timeout guard message always matches the timeout pattern: the match
sits inside the literal prefix, before the numeric part. -/
theorem isTimeoutMessage_timeoutMessage (connectTimeoutMs : Nat) :
    isTimeoutMessage (timeoutMessage connectTimeoutMs) = true := rfl

example : isTimeoutMessage "Connection timed out after 30000ms" = true := by decide
example : isTimeoutMessage "timeout" = true := by decide
example : isTimeoutMessage "Timed   OUT" = true := by decide
example : isTimeoutMessage "connection refused" = false := by decide
example : isTimeoutMessage "request timed out by gateway" = true := by decide

/-! ### Headers

lib.js lines 90-92: an Authorization header is added exactly when the
apiToken is truthy; in JavaScript a string is truthy unless empty. -/

/-- The Authorization header value passed to both transport constructors,
none when no header is set. -/
def authHeader (apiToken : Option String) : Option String :=
  match apiToken with
  | none => none
  | some t => if t = "" then none else some ("Bearer " ++ t)

/-! ### The connection attempt (lib.js connect, lines 89-133)

One attempt races client.connect against a single timer created once per
attempt. The outcome of each race is an environment parameter. -/

/-- Outcome of racing one client.connect call against the shared timer. -/
inductive RaceOutcome where
  | connected
  | timerFired
  | rejected (msg : String)
deriving Repr, DecidableEq

/-- The value Promise.race settles with: ok, or the message of the error it
rejects with. When the timer fires first the error carries the timeout
guard message of lib.js line 99. -/
def raceResult (connectTimeoutMs : Nat) : RaceOutcome → Except String Unit
  | .connected => .ok ()
  | .timerFired => .error (timeoutMessage connectTimeoutMs)
  | .rejected msg => .error msg

/-- Observable record of one run of connect: its result (error message, or
the index of the client that connected: 1 for the client made for the
primary StreamableHTTP try, 2 for the client made for the SSE fallback),
which transports were constructed and with which address and
Authorization header, how often the fallback connect ran, and how many
timers the attempt started. -/
structure ConnectResult where
  outcome : Except String Nat
  primaryUrl : String
  primaryAuth : Option String
  fallbackConstructed : Bool
  fallbackUrl : Option String
  fallbackAuth : Option String
  fallbackConnectAttempts : Nat
  timersStarted : Nat
deriving Repr

/-- lib.js connect (lines 89-133): build the headers once, start one timer,
try StreamableHTTP; on an error whose message matches the timeout pattern
rethrow at once; on any other error construct the SSE transport with the
same url and headers and try it against the same timer. -/
def connect (serverUrl : String) (apiToken : Option String)
    (connectTimeoutMs : Nat) (primary fallback : RaceOutcome) : ConnectResult :=
  let auth := authHeader apiToken
  match raceResult connectTimeoutMs primary with
  | .ok _ =>
    { outcome := .ok 1
      primaryUrl := serverUrl
      primaryAuth := auth
      fallbackConstructed := false
      fallbackUrl := none
      fallbackAuth := none
      fallbackConnectAttempts := 0
      timersStarted := 1 }
  | .error errMsg =>
    if isTimeoutMessage errMsg then
      { outcome := .error errMsg
        primaryUrl := serverUrl
        primaryAuth := auth
        fallbackConstructed := false
        fallbackUrl := none
        fallbackAuth := none
        fallbackConnectAttempts := 0
        timersStarted := 1 }
    else
      match raceResult connectTimeoutMs fallback with
      | .ok _ =>
        { outcome := .ok 2
          primaryUrl := serverUrl
          primaryAuth := auth
          fallbackConstructed := true
          fallbackUrl := some serverUrl
          fallbackAuth := auth
          fallbackConnectAttempts := 1
          timersStarted := 1 }
      | .error m2 =>
        { outcome := .error m2
          primaryUrl := serverUrl
          primaryAuth := auth
          fallbackConstructed := true
          fallbackUrl := some serverUrl
          fallbackAuth := auth
          fallbackConnectAttempts := 1
          timersStarted := 1 }

/-! ### The connection supervisor (lib.js buildGetRemoteClient, lines 64-151)

The closure state consists of the two mutable variables remoteClient and
connectPromise (lines 74-75). Handles and pending attempts are modelled by
identities: clients carry the index at which they were constructed and
attempts the index at which they were started, so that two distinct
constructions are distinct values, as two object references are in
JavaScript. The asynchronous settlement of the attempt promise is split
into the ev handlers that actually run: the then-handler of line 140, the
catch-handler of line 144 and the onclose callback of line 81. -/

/-- The closure state of buildGetRemoteClient, plus the two counters that
supply fresh identities. -/
structure SupState where
  remoteClient : Option Nat
  connectPromise : Option Nat
  nextClientId : Nat
  attemptsStarted : Nat
deriving Repr, DecidableEq

/-- What one call of getRemoteClient observably did: returned the cached
handle, joined the pending attempt, or started a new attempt. -/
inductive AcquireObs where
  | cached (c : Nat)
  | pending (a : Nat)
  | started (a : Nat)
deriving Repr, DecidableEq

/-- lib.js lines 135-150: return the cached client if present, else the
pending promise if present, else start a new attempt and store it. -/
def getRemoteClient (s : SupState) : SupState × AcquireObs :=
  match s.remoteClient with
  | some c => (s, .cached c)
  | none =>
    match s.connectPromise with
    | some a => (s, .pending a)
    | none =>
      ({ s with
          connectPromise := some s.attemptsStarted
          attemptsStarted := s.attemptsStarted + 1 },
        .started s.attemptsStarted)

/-- The then-handler of lib.js lines 140-143: when the pending attempt
resolves with a freshly constructed client, store it in remoteClient. The
handler does not clear connectPromise. Returns the attempt id and the
client id delivered to every caller awaiting that attempt. -/
def onAttemptSuccess (s : SupState) : SupState × Option (Nat × Nat) :=
  match s.connectPromise with
  | some a =>
    ({ s with
        remoteClient := some s.nextClientId
        nextClientId := s.nextClientId + 1 },
      some (a, s.nextClientId))
  | none => (s, none)

/-- The catch-handler of lib.js lines 144-147: on failure clear
connectPromise and rethrow, delivering the failure to every caller
awaiting the attempt whose id is returned. -/
def onAttemptFailure (s : SupState) : SupState × Option Nat :=
  match s.connectPromise with
  | some a => ({ s with connectPromise := none }, some a)
  | none => (s, none)

/-- The onclose callback installed by makeClient, lib.js lines 81-85:
clear both remoteClient and connectPromise; nothing else happens. -/
def onclose (s : SupState) : SupState :=
  { s with remoteClient := none, connectPromise := none }

/-- The initial closure state, lib.js lines 74-75. -/
def initState : SupState :=
  { remoteClient := none, connectPromise := none, nextClientId := 0, attemptsStarted := 0 }

/-- n successive getRemoteClient calls, returning the final state and the
observation of each call in order. Because getRemoteClient never suspends
before reading and writing the closure state, concurrent callers on the
single-threaded event loop execute it back to back, which this models. -/
def acquireMany (s : SupState) : Nat → SupState × List AcquireObs
  | 0 => (s, [])
  | n + 1 =>
    let p := getRemoteClient s
    let q := acquireMany p.1 n
    (q.1, p.2 :: q.2)

/-! ### The instrumentation wrapper (lib.js withLogging, lines 27-40) -/

/-- A JavaScript Error as far as the wrapper can observe it: its
constructor name (the kind) and its message. -/
structure JsError where
  name : String
  message : String
deriving Repr, DecidableEq

/-- lib.js withLogging (lines 27-40): log a start line, run the body, then
log a success line with the elapsed time and return the result unchanged,
or log a FAILED line with the elapsed time and the message and rethrow
the caught error itself. elapsedMs stands for the difference of the two
Date.now() readings. Returns the lines logged, in order, with the
outcome. -/
def withLogging {Req Res : Type} (operation : String)
    (fn : Req → Except JsError Res) (elapsedMs : Nat) (request : Req) :
    List String × Except JsError Res :=
  let startLine := "Proxying " ++ operation ++ "..."
  match fn request with
  | .ok result =>
    ([startLine, operation ++ " completed in " ++ toString elapsedMs ++ "ms"], .ok result)
  | .error error =>
    ([startLine,
      operation ++ " FAILED in " ++ toString elapsedMs ++ "ms: " ++ error.message],
      .error error)

/-! ### Claims about the supervisor -/

/-- Claim C1: while an attempt is in flight (connectPromise set) and no
cached handle exists, every getRemoteClient call — however many are issued
before the attempt resolves — returns the same pending outcome, leaves the
state unchanged, and starts no new attempt. Hence the connect sequence of
the in-flight attempt is the only one running, and every caller awaits the
one attempt a, whose single resolution all of them receive. -/
theorem acquire_while_inflight_pending (s : SupState) (a : Nat) (n : Nat)
    (h1 : s.remoteClient = none) (h2 : s.connectPromise = some a) :
    acquireMany s n = (s, List.replicate n (AcquireObs.pending a)) := by
  have hstep : getRemoteClient s = (s, .pending a) := by
    simp [getRemoteClient, h1, h2]
  induction n with
  | zero => simp [acquireMany]
  | succ n ih => simp [acquireMany, hstep, ih, List.replicate_succ]

/-- Witness for C1: from the state right after the first acquire of a fresh
supervisor, three further acquires all join attempt 0 and change nothing. -/
theorem acquire_while_inflight_pending_witness :
    acquireMany ⟨none, some 0, 0, 1⟩ 3
      = (⟨none, some 0, 0, 1⟩, List.replicate 3 (AcquireObs.pending 0)) :=
  acquire_while_inflight_pending ⟨none, some 0, 0, 1⟩ 0 3 rfl rfl

/-- Counterexample to Claim C2: the state reached by one acquire followed by
a successful resolution of its attempt has remoteClient AND connectPromise
both present — the then-handler of lib.js lines 140-143 stores the client
but never clears connectPromise. -/
theorem cached_and_inflight_both_present :
    (onAttemptSuccess (getRemoteClient initState).1).1.remoteClient = some 0 ∧
    (onAttemptSuccess (getRemoteClient initState).1).1.connectPromise = some 0 := by
  decide

/-- Claim C2 as amended: when an attempt succeeds the handle is stored in
remoteClient but connectPromise is NOT cleared; it stays set (holding the
resolved attempt) until the close notification clears both fields at once;
a failed attempt clears connectPromise alone; and because getRemoteClient
consults remoteClient before connectPromise, the retained connectPromise
is never returned while a handle is cached. -/
theorem success_keeps_inflight_reference (s : SupState) (a : Nat)
    (h : s.connectPromise = some a) :
    (onAttemptSuccess s).1.remoteClient = some s.nextClientId ∧
    (onAttemptSuccess s).1.connectPromise = some a ∧
    (onAttemptFailure s).1.connectPromise = none ∧
    (onclose s).remoteClient = none ∧
    (onclose s).connectPromise = none ∧
    (∀ c, s.remoteClient = some c → getRemoteClient s = (s, .cached c)) := by
  refine ⟨?_, ?_, ?_, rfl, rfl, ?_⟩
  · simp [onAttemptSuccess, h]
  · simp [onAttemptSuccess, h]
  · simp [onAttemptFailure, h]
  · intro c hc
    simp [getRemoteClient, hc]

/-- Witness for the amended C2, at the state of a supervisor that cached
client 7 while attempt 3 stayed referenced. -/
theorem success_keeps_inflight_reference_witness :
    (onAttemptSuccess ⟨some 7, some 3, 5, 4⟩).1.remoteClient = some 5 ∧
    (onAttemptSuccess ⟨some 7, some 3, 5, 4⟩).1.connectPromise = some 3 ∧
    getRemoteClient ⟨some 7, some 3, 5, 4⟩
      = (⟨some 7, some 3, 5, 4⟩, AcquireObs.cached 7) := by
  have h := success_keeps_inflight_reference ⟨some 7, some 3, 5, 4⟩ 3 rfl
  exact ⟨h.1, h.2.1, h.2.2.2.2.2 7 rfl⟩

/-- Claim C6: firing the close notification of the cached handle clears the
whole cache and by itself starts no attempt (attemptsStarted unchanged);
the next getRemoteClient then begins a brand-new attempt, and the client
that attempt delivers is a fresh instance, distinct from the closed one. -/
theorem close_clears_cache_next_acquire_reconnects (s : SupState) (c : Nat)
    (_h1 : s.remoteClient = some c) (h2 : c < s.nextClientId) :
    (onclose s).remoteClient = none ∧
    (onclose s).connectPromise = none ∧
    (onclose s).attemptsStarted = s.attemptsStarted ∧
    (getRemoteClient (onclose s)).2 = .started s.attemptsStarted ∧
    (getRemoteClient (onclose s)).1.attemptsStarted = s.attemptsStarted + 1 ∧
    (onAttemptSuccess (getRemoteClient (onclose s)).1).2
      = some (s.attemptsStarted, s.nextClientId) ∧
    (onAttemptSuccess (getRemoteClient (onclose s)).1).1.remoteClient
      = some s.nextClientId ∧
    s.nextClientId ≠ c := by
  refine ⟨rfl, rfl, rfl, ?_, ?_, ?_, ?_, ?_⟩
  · simp [onclose, getRemoteClient]
  · simp [onclose, getRemoteClient]
  · simp [onclose, getRemoteClient, onAttemptSuccess]
  · simp [onclose, getRemoteClient, onAttemptSuccess]
  · omega

/-- Witness for C6, at the state a fresh supervisor reaches after its first
successful acquire (client 0 cached, attempt 0 still referenced). -/
theorem close_clears_cache_next_acquire_reconnects_witness :
    (onclose (⟨some 0, some 0, 1, 1⟩ : SupState)).remoteClient = none ∧
    (onclose (⟨some 0, some 0, 1, 1⟩ : SupState)).connectPromise = none ∧
    (onclose (⟨some 0, some 0, 1, 1⟩ : SupState)).attemptsStarted = 1 ∧
    (getRemoteClient (onclose ⟨some 0, some 0, 1, 1⟩)).2 = AcquireObs.started 1 ∧
    (getRemoteClient (onclose ⟨some 0, some 0, 1, 1⟩)).1.attemptsStarted = 2 ∧
    (onAttemptSuccess (getRemoteClient (onclose ⟨some 0, some 0, 1, 1⟩)).1).2
      = some (1, 1) ∧
    (onAttemptSuccess (getRemoteClient (onclose ⟨some 0, some 0, 1, 1⟩)).1).1.remoteClient
      = some 1 ∧
    (1 : Nat) ≠ 0 :=
  close_clears_cache_next_acquire_reconnects ⟨some 0, some 0, 1, 1⟩ 0 rfl (by decide)

/-- Claim C7: when the in-flight attempt fails, the catch-handler delivers
the failure to every caller awaiting that attempt (they all hold the same
attempt p) and clears connectPromise, so the very next getRemoteClient
starts an entirely new attempt — a fresh identity, never the failed p. -/
theorem failure_clears_inflight_next_acquire_fresh (s : SupState) (p : Nat)
    (h1 : s.remoteClient = none) (h2 : s.connectPromise = some p)
    (h3 : p < s.attemptsStarted) :
    (onAttemptFailure s).2 = some p ∧
    (onAttemptFailure s).1.connectPromise = none ∧
    (getRemoteClient (onAttemptFailure s).1).2 = .started s.attemptsStarted ∧
    s.attemptsStarted ≠ p := by
  refine ⟨?_, ?_, ?_, ?_⟩
  · simp [onAttemptFailure, h2]
  · simp [onAttemptFailure, h2]
  · simp [onAttemptFailure, getRemoteClient, h1, h2]
  · omega

/-- Witness for C7, at the state of a fresh supervisor whose first acquire
started attempt 0 which is about to fail. -/
theorem failure_clears_inflight_next_acquire_fresh_witness :
    (onAttemptFailure (⟨none, some 0, 0, 1⟩ : SupState)).2 = some 0 ∧
    (onAttemptFailure (⟨none, some 0, 0, 1⟩ : SupState)).1.connectPromise = none ∧
    (getRemoteClient (onAttemptFailure ⟨none, some 0, 0, 1⟩).1).2 = AcquireObs.started 1 ∧
    (1 : Nat) ≠ 0 :=
  failure_clears_inflight_next_acquire_fresh ⟨none, some 0, 0, 1⟩ 0 rfl rfl (by decide)

/-! ### Claims about the connection attempt -/

/-- Claim C3: when the deadline timer fires before the primary connect
resolves, the attempt rejects with the timeout guard message and the SSE
fallback transport is never constructed; moreover a timeout during the
fallback step is just as terminal: the attempt rejects with the timeout
guard message there too. -/
theorem primary_timeout_terminal (url : String) (tok : Option String)
    (ms : Nat) (fb : RaceOutcome) :
    (connect url tok ms .timerFired fb).outcome = .error (timeoutMessage ms) ∧
    (connect url tok ms .timerFired fb).fallbackConstructed = false ∧
    (∀ msg, isTimeoutMessage msg = false →
      (connect url tok ms (.rejected msg) .timerFired).outcome
        = .error (timeoutMessage ms)) := by
  refine ⟨?_, ?_, ?_⟩
  · simp [connect, raceResult, isTimeoutMessage_timeoutMessage]
  · simp [connect, raceResult, isTimeoutMessage_timeoutMessage]
  · intro msg hm
    simp [connect, raceResult, hm]

/-- Witness for C3 at the configured production address and the default
30000 ms deadline. -/
theorem primary_timeout_terminal_witness :
    (connect "https://vis42.com/api/mcp" none 30000 .timerFired .connected).outcome
      = .error "Connection timed out after 30000ms" ∧
    (connect "https://vis42.com/api/mcp" none 30000 .timerFired .connected).fallbackConstructed
      = false ∧
    (connect "https://vis42.com/api/mcp" none 30000
        (.rejected "connection refused") .timerFired).outcome
      = .error "Connection timed out after 30000ms" := by
  have h := primary_timeout_terminal "https://vis42.com/api/mcp" none 30000 .connected
  exact ⟨h.1, h.2.1, h.2.2 "connection refused" (by decide)⟩

/-- Counterexample to Claim C4: two primary failures of the identical kind
(a transport rejection, the timer never fired) are treated differently
purely because of their message text — the one whose text matches the
timeout pattern skips the fallback, the other one takes it. The
discrimination is therefore by free-text message, not by error kind. -/
theorem fallback_skipped_by_message_text :
    (connect "https://vis42.com/api/mcp" none 30000
        (.rejected "socket timed out by gateway") .connected).fallbackConstructed = false ∧
    (connect "https://vis42.com/api/mcp" none 30000
        (.rejected "socket hang up") .connected).fallbackConstructed = true := by
  decide

/-- Claim C4 as amended: whether the fallback step runs after a primary
rejection is decided exactly by testing the message text of the error
against the pattern /timed?\s*out/i — the fallback runs precisely when the
message does not match. -/
theorem fallback_decided_by_timeout_pattern (url : String) (tok : Option String)
    (ms : Nat) (msg : String) (fb : RaceOutcome) :
    (connect url tok ms (.rejected msg) fb).fallbackConstructed
      = !(isTimeoutMessage msg) := by
  cases h : isTimeoutMessage msg <;> cases fb <;> simp [connect, raceResult, h]

/-- Counterexample to Claim C5: a primary connect rejection before the
deadline (the timer never fired — a non-timeout failure) after which the
fallback is NOT attempted, because the message text of the rejection
happens to match the timeout pattern. -/
theorem nontimeout_rejection_without_fallback :
    (connect "https://vis42.com/api/mcp" none 30000
        (.rejected "upstream request timed out (504)") .connected).fallbackConstructed
      = false ∧
    (connect "https://vis42.com/api/mcp" none 30000
        (.rejected "upstream request timed out (504)") .connected).fallbackConnectAttempts
      = 0 := by
  decide

/-- Claim C5 as amended: if the primary connect fails before the deadline
with an error whose message does not match the timeout pattern, the
fallback transport is constructed with the same address and the same
Authorization header set, its connect is attempted exactly once, and the
whole attempt still runs against the single timer started at the
beginning — no second timer is ever created. -/
theorem fallback_once_same_url_headers_same_timer (url : String)
    (tok : Option String) (ms : Nat) (msg : String) (fb : RaceOutcome)
    (h : isTimeoutMessage msg = false) :
    (connect url tok ms (.rejected msg) fb).fallbackConstructed = true ∧
    (connect url tok ms (.rejected msg) fb).fallbackUrl = some url ∧
    (connect url tok ms (.rejected msg) fb).fallbackAuth
      = (connect url tok ms (.rejected msg) fb).primaryAuth ∧
    (connect url tok ms (.rejected msg) fb).fallbackConnectAttempts = 1 ∧
    (connect url tok ms (.rejected msg) fb).timersStarted = 1 := by
  cases fb <;> simp [connect, raceResult, h]

/-- Witness for the amended C5: primary refused, fallback connects. -/
theorem fallback_once_same_url_headers_same_timer_witness :
    (connect "https://vis42.com/api/mcp" (some "tok123") 5000
        (.rejected "connection refused") .connected).fallbackConstructed = true ∧
    (connect "https://vis42.com/api/mcp" (some "tok123") 5000
        (.rejected "connection refused") .connected).fallbackUrl
      = some "https://vis42.com/api/mcp" ∧
    (connect "https://vis42.com/api/mcp" (some "tok123") 5000
        (.rejected "connection refused") .connected).fallbackAuth
      = (connect "https://vis42.com/api/mcp" (some "tok123") 5000
        (.rejected "connection refused") .connected).primaryAuth ∧
    (connect "https://vis42.com/api/mcp" (some "tok123") 5000
        (.rejected "connection refused") .connected).fallbackConnectAttempts = 1 ∧
    (connect "https://vis42.com/api/mcp" (some "tok123") 5000
        (.rejected "connection refused") .connected).timersStarted = 1 :=
  fallback_once_same_url_headers_same_timer "https://vis42.com/api/mcp"
    (some "tok123") 5000 "connection refused" .connected (by decide)

/-- Claim C9: with a nonempty apiToken configured, the primary transport and
the fallback transport are both constructed with the Authorization header
Bearer token; with no apiToken, neither construction receives an
Authorization header, on any path of the attempt. -/
theorem auth_header_on_both_transports (url : String) (ms : Nat) (t : String)
    (msg : String) (fb : RaceOutcome) (ht : t ≠ "")
    (hm : isTimeoutMessage msg = false) :
    (connect url (some t) ms (.rejected msg) fb).primaryAuth
      = some ("Bearer " ++ t) ∧
    (connect url (some t) ms (.rejected msg) fb).fallbackAuth
      = some ("Bearer " ++ t) ∧
    (∀ p f : RaceOutcome,
      (connect url none ms p f).primaryAuth = none ∧
      (connect url none ms p f).fallbackAuth = none) := by
  refine ⟨?_, ?_, ?_⟩
  · cases fb <;> simp [connect, raceResult, authHeader, hm, ht]
  · cases fb <;> simp [connect, raceResult, authHeader, hm, ht]
  · intro p f
    cases p <;> cases f <;>
      simp [connect, raceResult, authHeader] <;>
      split <;> simp

/-- Witness for C9: token vis42-secret on a refused-then-fallback run, and
the token-free run of the same shape. -/
theorem auth_header_on_both_transports_witness :
    (connect "https://vis42.com/api/mcp" (some "vis42-secret") 30000
        (.rejected "connection refused") .connected).primaryAuth
      = some "Bearer vis42-secret" ∧
    (connect "https://vis42.com/api/mcp" (some "vis42-secret") 30000
        (.rejected "connection refused") .connected).fallbackAuth
      = some "Bearer vis42-secret" ∧
    (connect "https://vis42.com/api/mcp" none 30000
        (.rejected "connection refused") .connected).primaryAuth = none ∧
    (connect "https://vis42.com/api/mcp" none 30000
        (.rejected "connection refused") .connected).fallbackAuth = none := by
  have h := auth_header_on_both_transports "https://vis42.com/api/mcp" 30000
    "vis42-secret" "connection refused" .connected (by decide) (by decide)
  exact ⟨h.1, h.2.1, (h.2.2 (.rejected "connection refused") .connected).1,
    (h.2.2 (.rejected "connection refused") .connected).2⟩

/-- Claim C10: any primary rejection whose message matches the pattern
/timed?\s*out/i — even though the deadline timer never fired — terminates
the whole attempt with that very error, and the fallback transport is
never constructed. -/
theorem timeout_looking_message_skips_fallback (url : String)
    (tok : Option String) (ms : Nat) (msg : String) (fb : RaceOutcome)
    (h : isTimeoutMessage msg = true) :
    (connect url tok ms (.rejected msg) fb).outcome = .error msg ∧
    (connect url tok ms (.rejected msg) fb).fallbackConstructed = false := by
  simp [connect, raceResult, h]

/-- Witness for C10: a transport-level rejection that merely mentions a
timeout in its text. -/
theorem timeout_looking_message_skips_fallback_witness :
    (connect "https://vis42.com/api/mcp" none 30000
        (.rejected "TLS handshake timed out") .connected).outcome
      = .error "TLS handshake timed out" ∧
    (connect "https://vis42.com/api/mcp" none 30000
        (.rejected "TLS handshake timed out") .connected).fallbackConstructed = false :=
  timeout_looking_message_skips_fallback "https://vis42.com/api/mcp" none 30000
    "TLS handshake timed out" .connected (by decide)

/-! ### Claim about the instrumentation wrapper -/

/-- Claim C8: every wrapped invocation logs exactly two lines — the start
line first, then one terminal line carrying the elapsed time (the success
form, or the FAILED form with the message) — and the outcome handed to the
caller is exactly what the body produced: the identical result on success,
the identical error value (same kind, same message) on failure. -/
theorem withLogging_logs_and_propagates {Req Res : Type} (operation : String)
    (fn : Req → Except JsError Res) (elapsedMs : Nat) (request : Req) :
    (withLogging operation fn elapsedMs request).1.length = 2 ∧
    (withLogging operation fn elapsedMs request).1.head?
      = some ("Proxying " ++ operation ++ "...") ∧
    (withLogging operation fn elapsedMs request).2 = fn request ∧
    (∀ result, fn request = .ok result →
      (withLogging operation fn elapsedMs request).1
        = ["Proxying " ++ operation ++ "...",
           operation ++ " completed in " ++ toString elapsedMs ++ "ms"]) ∧
    (∀ e, fn request = .error e →
      (withLogging operation fn elapsedMs request).1
        = ["Proxying " ++ operation ++ "...",
           operation ++ " FAILED in " ++ toString elapsedMs ++ "ms: " ++ e.message]) := by
  cases h : fn request <;> simp [withLogging, h]

/-- Witness for C8: the scenario of the spec, a resources/read body that
throws Error boom after 7 ms. -/
theorem withLogging_logs_and_propagates_witness :
    (withLogging "resources/read"
        (fun _ : Nat => (Except.error ⟨"Error", "boom"⟩ : Except JsError Nat))
        7 0).2
      = Except.error ⟨"Error", "boom"⟩ ∧
    (withLogging "resources/read"
        (fun _ : Nat => (Except.error ⟨"Error", "boom"⟩ : Except JsError Nat))
        7 0).1
      = ["Proxying resources/read...", "resources/read FAILED in 7ms: boom"] := by
  have h := withLogging_logs_and_propagates "resources/read"
    (fun _ : Nat => (Except.error ⟨"Error", "boom"⟩ : Except JsError Nat)) 7 0
  exact ⟨h.2.2.1, h.2.2.2.2 ⟨"Error", "boom"⟩ rfl⟩

end VIS42
